import Mathlib

/-!
Verification of the `camels_de1h` package (CAMELS-DE hourly station helper).

This file gives a shallow embedding of the identifier-mapping service
(`camels_de1h/util.py`), the station record manager (`camels_de1h/station.py`)
and the filesystem state they manipulate, and proves / refutes the frozen
claims about that code.

Modelling conventions:
* Python exceptions become an explicit error type `PyErr`; a function that can
  raise returns `Except PyErr _`, and when the caller's visible file state
  matters the function returns the (possibly updated) state as well, with the
  state threaded exactly where the source performs its writes, so that an
  error result provably leaves the state untouched.
* CSV/JSON stores become Lean lists of record structures; a pandas DataFrame
  column of strings becomes a `List String`.
* Timestamps are minutes since an arbitrary epoch (`Int`); one hour is 60.
* Python string comparison is lexicographic on code points; it is modelled by
  executable comparators over `String.data` (`strLe`, `strLt`) so that every
  concrete run can be checked by the kernel.
* `pandas.sort_values` / Python `sorted` become `List.insertionSort` with the
  corresponding key relation (the claims under study never depend on the
  relative order of equal keys).
-/

namespace CamelsDE1h

/-- Decidable equality for `Except`, needed to evaluate concrete runs of the
embedded functions with `decide`. -/
instance {ε : Type} {α : Type} [DecidableEq ε] [DecidableEq α] :
    DecidableEq (Except ε α) := fun x y =>
  match x, y with
  | Except.ok a, Except.ok b =>
    if h : a = b then isTrue (by rw [h])
    else isFalse (by intro hc; cases hc; exact h rfl)
  | Except.error a, Except.error b =>
    if h : a = b then isTrue (by rw [h])
    else isFalse (by intro hc; cases hc; exact h rfl)
  | Except.ok _, Except.error _ => isFalse (by intro hc; cases hc)
  | Except.error _, Except.ok _ => isFalse (by intro hc; cases hc)

/-! ### Executable string primitives

Python compares strings lexicographically by code point; these list-based
comparators implement that order in a form the kernel can evaluate. -/

/-- Lexicographic less-or-equal on code-point lists. -/
def listCharLe : List Char → List Char → Bool
  | [], _ => true
  | _ :: _, [] => false
  | a :: as, b :: bs =>
    if a.toNat = b.toNat then listCharLe as bs
    else decide (a.toNat < b.toNat)

/-- Python string `<=` (lexicographic by code point). -/
def strLe (a b : String) : Bool := listCharLe a.data b.data

/-- Python string `<` (lexicographic by code point). -/
def strLt (a b : String) : Bool := !(listCharLe b.data a.data)

/-- Python `s.startswith(p)` / pandas `.str.startswith`. -/
def strStartsWith (s p : String) : Bool := p.data.isPrefixOf s.data

/-- ASCII lower-casing of one character (`str.lower` acts on each char). -/
def charToLower (c : Char) : Char :=
  if 65 ≤ c.toNat ∧ c.toNat ≤ 90 then Char.ofNat (c.toNat + 32) else c

/-- Python `s.lower()` restricted to ASCII, which covers every format string
the code compares against. -/
def strToLower (s : String) : String := String.mk (s.data.map charToLower)

/-- Reads an all-digit character list as a decimal number, accumulating. -/
def digitsToNat : List Char → Nat → Option Nat
  | [], acc => some acc
  | c :: cs, acc =>
    if c.isDigit then digitsToNat cs (acc * 10 + (c.toNat - 48)) else Option.none

/-- Python `int(s)` on a plain digit string: `none` models the `ValueError`
raised on an empty or non-numeric string. -/
def strToNat? (s : String) : Option Nat :=
  if s.data.isEmpty then Option.none else digitsToNat s.data 0

theorem listCharLe_total : ∀ a b : List Char,
    listCharLe a b = true ∨ listCharLe b a = true := by
  intro a
  induction a with
  | nil => intro b; left; rfl
  | cons x as ih =>
    intro b
    cases b with
    | nil => right; rfl
    | cons y bs =>
      by_cases hxy : x.toNat = y.toNat
      · rcases ih bs with h | h
        · left; simp [listCharLe, hxy, h]
        · right; simp [listCharLe, hxy.symm, h]
      · rcases Nat.lt_or_ge x.toNat y.toNat with h | h
        · left; simp [listCharLe, hxy, h]
        · have hyx : y.toNat ≠ x.toNat := fun hc => hxy hc.symm
          have h2 : y.toNat < x.toNat := lt_of_le_of_ne h hyx
          right; simp [listCharLe, hyx, h2]

theorem listCharLe_trans : ∀ a b c : List Char,
    listCharLe a b = true → listCharLe b c = true → listCharLe a c = true := by
  intro a
  induction a with
  | nil => intro b c _ _; rfl
  | cons x as ih =>
    intro b c hab hbc
    cases b with
    | nil => simp [listCharLe] at hab
    | cons y bs =>
      cases c with
      | nil => simp [listCharLe] at hbc
      | cons z cs =>
        by_cases hxy : x.toNat = y.toNat
        · by_cases hyz : y.toNat = z.toNat
          · have hxz : x.toNat = z.toNat := hxy.trans hyz
            simp only [listCharLe, hxy, if_true, hyz, hxz] at hab hbc ⊢
            exact ih bs cs hab hbc
          · simp only [listCharLe] at hbc
            rw [if_neg hyz, decide_eq_true_eq] at hbc
            have hxz : x.toNat < z.toNat := hxy ▸ hbc
            have hne : x.toNat ≠ z.toNat := Nat.ne_of_lt hxz
            simp [listCharLe, hne, hxz]
        · simp only [listCharLe, if_neg hxy, decide_eq_true_eq] at hab
          by_cases hyz : y.toNat = z.toNat
          · have hxz : x.toNat < z.toNat := hyz ▸ hab
            have hne : x.toNat ≠ z.toNat := Nat.ne_of_lt hxz
            simp [listCharLe, hne, hxz]
          · simp only [listCharLe, if_neg hyz, decide_eq_true_eq] at hbc
            have hxz : x.toNat < z.toNat := lt_trans hab hbc
            have hne : x.toNat ≠ z.toNat := Nat.ne_of_lt hxz
            simp [listCharLe, hne, hxz]

theorem strLe_total (a b : String) : strLe a b = true ∨ strLe b a = true :=
  listCharLe_total a.data b.data

theorem strLe_trans {a b c : String} (h1 : strLe a b = true) (h2 : strLe b c = true) :
    strLe a c = true :=
  listCharLe_trans a.data b.data c.data h1 h2

/-! ### Identifier mapping service (`camels_de1h/util.py`) -/

/-- Python exception classes raised (or claimed to be raised) by the code. -/
inductive PyErr where
  | valueError (msg : String)
  | keyError (msg : String)
  | fileNotFoundError (msg : String)
  | typeError (msg : String)
deriving DecidableEq, Repr

/-- One row of `nuts_mapping.csv` / one record of `nuts_mapping.json`
(`util.py`: columns `provider_id`, `nuts_id`). -/
structure NutsEntry where
  provider_id : String
  nuts_id : String
deriving DecidableEq, Repr

/-- The two mirrored mapping stores written by `update_nuts_mapping`
(`util.py` lines 98-128): the tabular `nuts_mapping.csv` and the structured
`nuts_mapping.json`. -/
structure MappingState where
  csv : List NutsEntry
  json : List NutsEntry
deriving DecidableEq, Repr

/-- The 13 keys of `_INPUT_DEFAULT_PATHS` (`util.py` lines 16-30): the valid
Bundesland NUTS region codes. -/
def nutsRegionCodes : List String :=
  ["DE1", "DE2", "DE4", "DE7", "DE8", "DE9", "DEA",
   "DEB", "DEC", "DED", "DEE", "DEF", "DEG"]

/-- The resolved output directory (`util.py` line 14); an opaque root string
in this model. -/
def OUTPUT_PATH : String := "output_data"

/-- Python `f"{n:05d}"` for a natural number: decimal digits, left-padded with
zeros to width 5 (wider numbers are printed in full). -/
def format05 (n : Nat) : String :=
  let s := toString n
  if s.length < 5 then String.mk (List.replicate (5 - s.length) '0') ++ s else s

/-- Lexicographic maximum of a list of strings, as computed by
`pandas.Series.max` on a nonempty string series (`util.py` line 114).
The empty string is a neutral starting point since it precedes every string. -/
def seriesMaxStr (l : List String) : String :=
  l.foldl (fun a b => if strLe a b then b else a) ""

/-- Ordering of mapping entries by `nuts_id`. -/
def nutsLe (a b : NutsEntry) : Prop := strLe a.nuts_id b.nuts_id = true

instance : DecidableRel nutsLe := fun a b =>
  inferInstanceAs (Decidable (strLe a.nuts_id b.nuts_id = true))

instance : IsTotal NutsEntry nutsLe := ⟨fun a b => strLe_total a.nuts_id b.nuts_id⟩

instance : IsTrans NutsEntry nutsLe := ⟨fun _ _ _ h1 h2 => strLe_trans h1 h2⟩

/-- Sort a mapping list by `nuts_id` (`sort_values("nuts_id")` at
`util.py` line 119 and the `sorted(..., key=nuts_id)` at line 128). -/
def sortByNutsId (l : List NutsEntry) : List NutsEntry :=
  List.insertionSort nutsLe l

/-- The id generation of `util.py` lines 110-115: `{bl}1000` when no row of
the region exists, otherwise `bl` followed by `f"{int(max[-5:]) + 10:05d}"`
computed from the lexicographically largest `nuts_id` of the region.
`none` models the `ValueError` of `int(...)` on a non-numeric suffix. -/
def newNutsId (bl : String) (bl_mapping : List NutsEntry) : Option String :=
  if bl_mapping.isEmpty then some (bl ++ "1000")
  else (strToNat? ((seriesMaxStr (bl_mapping.map (fun e => e.nuts_id))).takeRight 5)).map
         (fun n => bl ++ format05 (n + 10))

/-- Embedding of `util.py` `update_nuts_mapping(provider_id, bl)`
(lines 88-130).  Returns the result of the call together with the state of
the two mapping stores after the call; both stores are only written on the
success path, exactly as in the source where the `raise` statements at lines
95 and 108 precede the `to_csv` (line 122) and `json.dump` (line 128) writes.
`bl_mapping` (line 104) is the filter of the csv store by region prefix. -/
def update_nuts_mapping (provider_id bl : String) (st : MappingState) :
    Except PyErr String × MappingState :=
  if nutsRegionCodes.contains bl = false then
    (Except.error (PyErr.valueError (bl ++ " is not a valid NUTS ID.")), st)
  else if (st.csv.map (fun e => e.provider_id)).contains provider_id = true then
    (Except.error
      (PyErr.valueError ("provider_id " ++ provider_id ++ " is already in the mapping")),
     st)
  else
    match newNutsId bl (st.csv.filter (fun e => strStartsWith e.nuts_id bl)) with
    | Option.none =>
      (Except.error (PyErr.valueError "invalid literal for int"), st)
    | some new_nuts_id =>
      (Except.ok new_nuts_id,
       { csv := sortByNutsId (st.csv ++ [⟨provider_id, new_nuts_id⟩]),
         json := sortByNutsId (sortByNutsId (st.csv ++ [⟨provider_id, new_nuts_id⟩])) })

/-- Embedding of `util.py` `get_output_path(camels_id)` (lines 43-58). -/
def get_output_path (camels_id : Option String) : Except PyErr String :=
  match camels_id with
  | Option.none => Except.ok OUTPUT_PATH
  | some cid =>
    if nutsRegionCodes.contains cid then Except.ok (OUTPUT_PATH ++ "/" ++ cid)
    else if cid.length == 8 then
      Except.ok (OUTPUT_PATH ++ "/" ++ cid.take 3 ++ "/" ++ cid)
    else Except.error (PyErr.valueError ("Given camels_id " ++ cid ++ " not recognized."))

/-- Embedding of `util.py` `get_nuts_mapping(format)` (lines 132-151): the
possible return shapes.  `noneView` is Python falling off the end of the
function and implicitly returning `None`. -/
inductive MappingView where
  | jsonView (m : List NutsEntry)
  | dfView (m : List NutsEntry)
  | noneView
deriving DecidableEq, Repr

/-- Embedding of `util.py` `get_nuts_mapping(format)` (lines 132-151).
`fileExists` is whether `nuts_mapping.json` exists; `mapping` is its parsed
content. -/
def get_nuts_mapping (format : String) (fileExists : Bool) (mapping : List NutsEntry) :
    Except PyErr MappingView :=
  if fileExists = false then
    Except.error (PyErr.fileNotFoundError "Cannot find the nuts_mapping")
  else if strToLower format == "json" then Except.ok (MappingView.jsonView mapping)
  else if (["csv", "df", "dataframe"] : List String).contains (strToLower format) then
    Except.ok (MappingView.dfView mapping)
  else Except.ok MappingView.noneView

/-! ### Filesystem state and the station record manager
(`camels_de1h/station.py`) -/

/-- The set of files that exist, as a list of paths.  Directory creation
(`mkdir`) has no observable effect in this model. -/
structure FS where
  files : List String
deriving DecidableEq, Repr

/-- Writing a file makes its path exist. -/
def FS.write (fs : FS) (path : String) : FS := ⟨path :: fs.files⟩

/-- The per-station time-series file path
(`station.py` line 41 / 163: `output_path / f"{gauge_id}_data.csv"`). -/
def dataFilePath (output_path gauge_id : String) : String :=
  output_path ++ "/" ++ gauge_id ++ "_data.csv"

/-- The station object: the attributes of `Station1h` that the claims touch.
The metadata display attributes set at `station.py` lines 47-91 (name,
coordinates, ...) decide no claim and are omitted. -/
structure Station where
  gauge_id : String
  output_path : String
  data_path : Option String
deriving DecidableEq, Repr

/-- The identifier dispatch of `Station1h.__init__` (`station.py` lines
29-35): the provider-id branch is checked first; `.loc` on the
provider-indexed mapping returns the row of the (unique, by the mapping
invariant) matching provider, modelled as the first match. -/
def resolve_gauge_id (mapping : List NutsEntry) (gauge_id : String) :
    Except PyErr String :=
  match mapping.find? (fun e => e.provider_id == gauge_id) with
  | some e => Except.ok e.nuts_id
  | Option.none =>
    if (mapping.map (fun e => e.nuts_id)).contains gauge_id then Except.ok gauge_id
    else Except.error
      (PyErr.valueError (gauge_id ++ " is neither a provider_id nor a CAMELS-DE NUTSID."))

/-- Embedding of `Station1h.__init__` (`station.py` lines 14-45): resolve the
identifier, compute the output path, and cache `data_path` from the current
existence of the data file (lines 40-45). -/
def station_init (mapping : List NutsEntry) (fs : FS) (gauge_id : String) :
    Except PyErr Station :=
  match resolve_gauge_id mapping gauge_id with
  | Except.error e => Except.error e
  | Except.ok gid =>
    match get_output_path (some gid) with
    | Except.error e => Except.error e
    | Except.ok outp =>
      let data_file := dataFilePath outp gid
      Except.ok { gauge_id := gid, output_path := outp,
                  data_path := if fs.files.contains data_file then some data_file
                               else Option.none }

/-- Embedding of `Station1h.get_data` (`station.py` lines 165-181): raises
`FileNotFoundError` when `data_path` is `None` (line 173-174), otherwise
reads the cached path (`pd.read_csv`, which itself raises if the file is
gone).  The returned record content and the `date_index` reshaping are
presentation only and not modelled. -/
def get_data (st : Station) (fs : FS) : Except PyErr Unit :=
  match st.data_path with
  | Option.none =>
    Except.error (PyErr.fileNotFoundError ("No data found for station " ++ st.gauge_id))
  | some p =>
    if fs.files.contains p then Except.ok () else Except.error (PyErr.fileNotFoundError p)

/-- The argument of `Station1h.save_data`: the columns of the frame, the
values of its `date` column (meaningful when `"date"` is among the columns;
otherwise they are the frame's index), and the timezone of those datetimes
(`none` = timezone-naive). The two value columns are carried opaquely to the
output file and are not modelled. -/
structure PDataFrame where
  colNames : List String
  dates : List Int
  tz : Option String
deriving DecidableEq, Repr

/-- A Python object passed where a DataFrame is expected. -/
inductive PyObj where
  | df (data : PDataFrame)
  | notDf
deriving DecidableEq, Repr

/-- `station.py` lines 127-131: add each missing value column as all-NaN. -/
def withValueCols (cols : List String) : List String :=
  let c1 := if cols.contains "discharge_vol_obs" then cols
            else cols ++ ["discharge_vol_obs"]
  if c1.contains "water_level_obs" then c1 else c1 ++ ["water_level_obs"]

/-- `data.index.duplicated().any()` (`station.py` line 140). -/
def datesDuplicated : List Int → Bool
  | [] => false
  | d :: rest => rest.contains d || datesDuplicated rest

/-- `data.index.is_monotonic_increasing` (`station.py` line 144):
non-decreasing. -/
def datesMonotonic : List Int → Bool
  | [] => true
  | [_] => true
  | a :: b :: rest => decide (a ≤ b) && datesMonotonic (b :: rest)

/-- All consecutive differences equal one hour
(`station.py` line 148, with timestamps in minutes). -/
def datesHourly : List Int → Bool
  | [] => true
  | [_] => true
  | a :: b :: rest => (b == a + 60) && datesHourly (b :: rest)

/-- Python `str(index.tz)`: `str(None)` is `"None"`. -/
def tzString : Option String → String
  | Option.none => "None"
  | some s => s

/-- Embedding of `Station1h.save_data` (`station.py` lines 105-163).
Returns the call result (the list of emitted warnings on success) together
with the filesystem after the call; the single write (line 163) is the last
step, after every `raise`, so an error result leaves the filesystem as it
was.  Note the projection `data[["date", "discharge_vol_obs",
"water_level_obs"]]` (line 134): it raises `KeyError` when `date` is not a
column, and it drops every other column, after which `set_index("date")`
leaves exactly the two value columns, so `additional_columns` (line 156) is
computed on the projected frame. -/
def save_data (st : Station) (input : PyObj) (fs : FS) :
    Except PyErr (List String) × FS :=
  match input with
  | PyObj.notDf => (Except.error (PyErr.valueError "Data must be a pandas dataframe."), fs)
  | PyObj.df data =>
    let cols2 := withValueCols data.colNames
    if cols2.contains "date" = false then
      (Except.error (PyErr.keyError "date"), fs)
    else
      -- after the projection and `set_index("date")` the remaining columns are:
      let indexedCols := (["date", "discharge_vol_obs", "water_level_obs"] : List String).erase "date"
      if datesDuplicated data.dates then
        (Except.error (PyErr.valueError (st.gauge_id ++ ": Data contains duplicated dates.")), fs)
      else if datesMonotonic data.dates = false then
        (Except.error (PyErr.valueError (st.gauge_id ++ ": Data is not sorted by date.")), fs)
      else if datesHourly data.dates = false then
        (Except.error (PyErr.valueError (st.gauge_id ++ ": Not all dates are in hourly resolution.")), fs)
      else if (tzString data.tz == "UTC") = false then
        (Except.error (PyErr.valueError (st.gauge_id ++ ": Data is not in UTC+0 or it misses the timezone information.")), fs)
      else
        let additional_columns := indexedCols.filter
          (fun c => !((["discharge_vol_obs", "water_level_obs"] : List String).contains c))
        let warns := if additional_columns.isEmpty then ([] : List String)
          else [st.gauge_id ++ ": Additional columns found: " ++
                String.intercalate ", " additional_columns]
        (Except.ok warns, fs.write (dataFilePath st.output_path st.gauge_id))

/-! ### Metadata records (`Station1h.save_metadata`) -/

/-- One row of the metadata table, with the twelve mandatory CAMELS-DE
fields built at `station.py` lines 229-243.  All fields are carried as their
CSV text; only `gauge_id` is ever inspected by the code. -/
structure MetaRow where
  gauge_id : String
  provider_id : String
  gauge_name : String
  water_body_name : String
  federal_state : String
  lon : String
  lat : String
  easting : String
  northing : String
  elev_metadata : String
  area_metadata : String
  part_of_camelsp : String
deriving DecidableEq, Repr

/-- Ordering of metadata rows by `gauge_id`. -/
def gaugeLe (a b : MetaRow) : Prop := strLe a.gauge_id b.gauge_id = true

instance : DecidableRel gaugeLe := fun a b =>
  inferInstanceAs (Decidable (strLe a.gauge_id b.gauge_id = true))

instance : IsTotal MetaRow gaugeLe := ⟨fun a b => strLe_total a.gauge_id b.gauge_id⟩

instance : IsTrans MetaRow gaugeLe := ⟨fun _ _ _ h1 h2 => strLe_trans h1 h2⟩

/-- `sort_values("gauge_id")` (`station.py` line 264). -/
def sortByGaugeId (l : List MetaRow) : List MetaRow :=
  List.insertionSort gaugeLe l

/-- Embedding of the global-table part of `Station1h.save_metadata`
(`station.py` lines 249-268).  `tbl` is the current content of
`{OUTPUT}/metadata/metadata1h.csv` (`none` when the file does not exist).
If the file is missing it is created with the single new row (line 250);
if the `gauge_id` is present, every row with that id is dropped, the new row
is concatenated and the table re-sorted (lines 256-266); otherwise the new
row is appended at the end of the file with `mode="a"` (line 268). -/
def save_metadata_global (row : MetaRow) (tbl : Option (List MetaRow)) : List MetaRow :=
  match tbl with
  | Option.none => [row]
  | some meta =>
    if (meta.map (fun r => r.gauge_id)).contains row.gauge_id then
      sortByGaugeId ((meta.filter (fun r => !(r.gauge_id == row.gauge_id))) ++ [row])
    else
      meta ++ [row]

/-- Embedding of `Station1h.save_metadata` (`station.py` lines 199-268) as a
whole: writes the per-station metadata file (line 246) and updates the
global table. -/
def save_metadata (st : Station) (row : MetaRow) (tbl : Option (List MetaRow))
    (fs : FS) : List MetaRow × FS :=
  (save_metadata_global row tbl,
   fs.write (st.output_path ++ "/" ++ st.gauge_id ++ "_metadata.csv"))

/-! ### Generic helper lemmas -/

/-- Whatever is true of a member of `withValueCols cols`: it was a column
already, or it is one of the two synthesized value columns. -/
theorem mem_withValueCols {a : String} {cols : List String}
    (h : a ∈ withValueCols cols) :
    a ∈ cols ∨ a = "discharge_vol_obs" ∨ a = "water_level_obs" := by
  simp only [withValueCols] at h
  split at h <;> split at h <;> simp_all [List.mem_append] <;> tauto

/-- A metadata row with the given `gauge_id` and empty remaining fields,
used as concrete test data. -/
def mkRow (g : String) : MetaRow := ⟨g, "", "", "", "", "", "", "", "", "", "", ""⟩

/-- Recognizer for a `TypeError` result. -/
def resultIsTypeError {α : Type} : Except PyErr α → Bool
  | Except.error (PyErr.typeError _) => true
  | _ => false

/-! ### Claim theorems -/

/-- C1: the claim says every registration returns an 8-character `nuts_id`
whose 5-digit zero-padded sequence number is `1000 + 10*(N-1)`.  The code
contradicts its own 8-character invariant (`get_output_path` rejects any
station id that is not 8 characters): the first registration for a region in
an empty mapping returns the 7-character `DE11000` (the `1000` is not
zero-padded, `util.py` line 112), and the second registration then returns
`DE111010` instead of an id with sequence number `01010`, because the
5-character suffix of `DE11000` is `11000`. -/
theorem update_nuts_mapping_first_id_code_bug :
    update_nuts_mapping "p1" "DE1" ⟨[], []⟩ =
      (Except.ok "DE11000", ⟨[⟨"p1", "DE11000"⟩], [⟨"p1", "DE11000"⟩]⟩)
    ∧ "DE11000".length = 7
    ∧ (update_nuts_mapping "p2" "DE1" ⟨[⟨"p1", "DE11000"⟩], [⟨"p1", "DE11000"⟩]⟩).1 =
        Except.ok "DE111010"
    ∧ get_output_path (some "DE11000") =
        Except.error (PyErr.valueError "Given camels_id DE11000 not recognized.") := by
  exact ⟨by decide, by decide, by decide, by decide⟩

/-- C7: the claim (and the docstring of `save_data`) says extra columns are
reported in a non-fatal warning.  In fact the projection at `station.py`
line 134 silently drops the extra column `temperature`, so the
additional-columns check at lines 156-158 never fires: the call completes
the write but emits no warning at all. -/
theorem save_data_extra_columns_code_bug :
    save_data ⟨"DE110000", "output_data/DE1/DE110000", Option.none⟩
        (PyObj.df ⟨["date", "discharge_vol_obs", "water_level_obs", "temperature"],
                   [0, 60, 120], some "UTC"⟩) ⟨[]⟩ =
      (Except.ok [], ⟨["output_data/DE1/DE110000/DE110000_data.csv"]⟩) := by
  decide

/-- C8 counterexample: on a non-DataFrame input, `save_data` raises
`ValueError` (`station.py` line 125), not the `TypeError` the claim
states. -/
theorem save_data_not_dataframe_cex :
    (save_data ⟨"DE110000", "output_data/DE1/DE110000", Option.none⟩ PyObj.notDf ⟨[]⟩).1 =
      Except.error (PyErr.valueError "Data must be a pandas dataframe.")
    ∧ resultIsTypeError
        (save_data ⟨"DE110000", "output_data/DE1/DE110000", Option.none⟩ PyObj.notDf ⟨[]⟩).1 =
      false := by
  exact ⟨rfl, rfl⟩

/-- C8 amended: for every non-DataFrame input, `save_data` fails with
`ValueError("Data must be a pandas dataframe.")`, before any validation of
the index and with the filesystem unchanged. -/
theorem save_data_not_dataframe_valueerror (st : Station) (fs : FS) :
    save_data st PyObj.notDf fs =
      (Except.error (PyErr.valueError "Data must be a pandas dataframe."), fs) := rfl

/-- C9: for every DataFrame input lacking a `date` column — in particular one
whose dates live in a valid UTC hourly index — `save_data` fails with the
`KeyError` of the column projection (`station.py` line 134), before the
duplicate/sorted/hourly/timezone checks and with the filesystem unchanged. -/
theorem save_data_missing_date_keyerror (st : Station) (d : PDataFrame) (fs : FS)
    (h : d.colNames.contains "date" = false) :
    save_data st (PyObj.df d) fs = (Except.error (PyErr.keyError "date"), fs) := by
  have hd : ("date" : String) ∉ d.colNames := by simpa using h
  have h2 : (withValueCols d.colNames).contains "date" = false := by
    cases hc : (withValueCols d.colNames).contains "date" with
    | false => rfl
    | true =>
      exfalso
      have hmem : ("date" : String) ∈ withValueCols d.colNames := by simpa using hc
      rcases mem_withValueCols hmem with h3 | h3 | h3
      · exact hd h3
      · exact absurd h3 (by decide)
      · exact absurd h3 (by decide)
  simp only [save_data, h2]
  rfl

/-- C9 witness: a frame whose dates are a valid hourly UTC index and whose
only column is `discharge_vol_obs` hits the `KeyError`. -/
theorem save_data_missing_date_keyerror_witness :
    ((["discharge_vol_obs"] : List String).contains "date" = false)
    ∧ save_data ⟨"DE110000", "output_data/DE1/DE110000", Option.none⟩
        (PyObj.df ⟨["discharge_vol_obs"], [0, 60], some "UTC"⟩) ⟨[]⟩ =
      (Except.error (PyErr.keyError "date"), ⟨[]⟩) :=
  ⟨by decide,
   save_data_missing_date_keyerror ⟨"DE110000", "output_data/DE1/DE110000", Option.none⟩
     ⟨["discharge_vol_obs"], [0, 60], some "UTC"⟩ ⟨[]⟩ (by decide)⟩

/-- C4 counterexample: for an identifier equal to one entry's `nuts_id`
and a different entry's `provider_id`, the constructor's dispatch
(`station.py` lines 29-35) checks the provider branch first and returns the
other entry's `nuts_id`, not the identifier as-is as the claim states. -/
theorem resolve_provider_priority_cex :
    resolve_gauge_id [⟨"A", "DE111010"⟩, ⟨"DE111010", "DE210000"⟩] "DE111010" =
      Except.ok "DE210000"
    ∧ resolve_gauge_id [⟨"A", "DE111010"⟩, ⟨"DE111010", "DE210000"⟩] "DE111010" ≠
      Except.ok "DE111010" := by
  exact ⟨by decide, by decide⟩

/-- C4 amended: the dispatch checks `provider_id` first: an identifier
matching some entry's `provider_id` resolves to that entry's `nuts_id`
(even if the identifier is also a `nuts_id`); only otherwise is an identifier
matching a `nuts_id` returned as-is; and an identifier matching neither
fails with the NotFound-style `ValueError`. -/
theorem station_resolve_dispatch (mapping : List NutsEntry) (gid : String) :
    (∀ e : NutsEntry, mapping.find? (fun x => x.provider_id == gid) = some e →
        resolve_gauge_id mapping gid = Except.ok e.nuts_id)
    ∧ (mapping.find? (fun x => x.provider_id == gid) = Option.none →
        (mapping.map (fun e => e.nuts_id)).contains gid = true →
        resolve_gauge_id mapping gid = Except.ok gid)
    ∧ (mapping.find? (fun x => x.provider_id == gid) = Option.none →
        (mapping.map (fun e => e.nuts_id)).contains gid = false →
        resolve_gauge_id mapping gid =
          Except.error
            (PyErr.valueError (gid ++ " is neither a provider_id nor a CAMELS-DE NUTSID."))) := by
  refine ⟨?_, ?_, ?_⟩
  · intro e he; simp [resolve_gauge_id, he]
  · intro hn hm
    have hm2 : gid ∈ List.map (fun e => e.nuts_id) mapping := by simpa using hm
    simp [resolve_gauge_id, hn, hm2]
  · intro hn hm
    have hm2 : gid ∉ List.map (fun e => e.nuts_id) mapping := by simpa using hm
    simp [resolve_gauge_id, hn, hm2]

/-- C4 witness: a plain provider id resolves to its mapped `nuts_id`. -/
theorem station_resolve_dispatch_witness :
    (([⟨"p1", "DE110000"⟩] : List NutsEntry).find? (fun x => x.provider_id == "p1") =
      some ⟨"p1", "DE110000"⟩)
    ∧ resolve_gauge_id [⟨"p1", "DE110000"⟩] "p1" = Except.ok "DE110000" :=
  ⟨rfl, (station_resolve_dispatch [⟨"p1", "DE110000"⟩] "p1").1 ⟨"p1", "DE110000"⟩ rfl⟩

/-- C10: when the mapping file exists, any `format` argument that is not
case-insensitively one of `json`, `csv`, `df`, `dataframe` makes
`get_nuts_mapping` fall off the end of the function and return `None`
rather than raising (`util.py` lines 147-151). -/
theorem get_nuts_mapping_unknown_format_none (format : String)
    (mapping : List NutsEntry)
    (h : strToLower format ∉ (["json", "csv", "df", "dataframe"] : List String)) :
    get_nuts_mapping format true mapping = Except.ok MappingView.noneView := by
  simp only [List.mem_cons, List.not_mem_nil, or_false, not_or] at h
  obtain ⟨h1, h2, h3, h4⟩ := h
  simp [get_nuts_mapping, h1, h2, h3, h4]

/-- C10 witness: the format string `xml` yields `None`. -/
theorem get_nuts_mapping_unknown_format_none_witness :
    (strToLower "xml" ∉ (["json", "csv", "df", "dataframe"] : List String))
    ∧ get_nuts_mapping "xml" true [] = Except.ok MappingView.noneView :=
  ⟨by decide, get_nuts_mapping_unknown_format_none "xml" [] (by decide)⟩

/-! ### Helper lemmas for the sorting and upsert proofs -/

theorem sortByGaugeId_perm (l : List MetaRow) : List.Perm (sortByGaugeId l) l :=
  List.perm_insertionSort gaugeLe l

theorem sortByGaugeId_sorted (l : List MetaRow) :
    List.Sorted gaugeLe (sortByGaugeId l) :=
  List.sorted_insertionSort gaugeLe l

theorem sortByNutsId_perm (l : List NutsEntry) : List.Perm (sortByNutsId l) l :=
  List.perm_insertionSort nutsLe l

/-- The rows kept by the replace-path filter all have a different gauge_id
from the incoming row. -/
theorem not_mem_filtered_keys (row : MetaRow) (meta : List MetaRow) :
    row.gauge_id ∉
      (meta.filter (fun r => !(r.gauge_id == row.gauge_id))).map
        (fun r => r.gauge_id) := by
  intro h
  rcases List.mem_map.mp h with ⟨r, hr, hg⟩
  have hq := (List.mem_filter.mp hr).2
  simp at hq
  exact hq hg

theorem FS.contains_write_self (fs : FS) (p : String) :
    (fs.write p).files.contains p = true := by
  simp [FS.write]

/-- A successful `save_data` call wrote exactly the station data file. -/
theorem save_data_ok_fs {st : Station} {input : PyObj} {fs fs2 : FS}
    {warns : List String}
    (h : save_data st input fs = (Except.ok warns, fs2)) :
    fs2 = fs.write (dataFilePath st.output_path st.gauge_id) := by
  cases input with
  | notDf => exact absurd h (by simp [save_data])
  | df d =>
    simp only [save_data] at h
    split at h
    · exact absurd h (by simp)
    · split at h
      · exact absurd h (by simp)
      · split at h
        · exact absurd h (by simp)
        · split at h
          · exact absurd h (by simp)
          · split at h
            · exact absurd h (by simp)
            · have := congrArg Prod.snd h
              simpa using this.symm

/-! ### Claim theorems, continued -/

/-- C2 counterexample: saving a new `gauge_id` smaller than an existing one
takes the append path (`station.py` line 268, `mode="a"`), which appends the
row at the end and leaves the global table unsorted — refuting the claim
that the table is sorted after every successful save. -/
theorem save_metadata_append_unsorted_cex :
    save_metadata_global (mkRow "DE110000") (some [mkRow "DE210000"]) =
      [mkRow "DE210000", mkRow "DE110000"]
    ∧ ¬ List.Sorted gaugeLe [mkRow "DE210000", mkRow "DE110000"] := by
  exact ⟨by decide, by decide⟩

/-- C2 amended: after every `save_metadata` call on a global table whose
rows have pairwise-distinct gauge_ids, the table still has at most one row
per `gauge_id`; the replace-if-exists path additionally leaves the table
sorted by `gauge_id`, but the append-if-new path only appends at the end
and does not re-sort. -/
theorem save_metadata_global_upsert_amended (row : MetaRow) (meta : List MetaRow)
    (hnd : (meta.map (fun r => r.gauge_id)).Nodup) :
    ((save_metadata_global row (some meta)).map (fun r => r.gauge_id)).Nodup
    ∧ ((meta.map (fun r => r.gauge_id)).contains row.gauge_id = true →
        List.Sorted gaugeLe (save_metadata_global row (some meta))) := by
  by_cases hc : (meta.map (fun r => r.gauge_id)).contains row.gauge_id = true
  · have heq : save_metadata_global row (some meta) =
        sortByGaugeId ((meta.filter (fun r => !(r.gauge_id == row.gauge_id))) ++ [row]) := by
      simp only [save_metadata_global]
      rw [if_pos hc]
    refine ⟨?_, fun _ => heq ▸ sortByGaugeId_sorted _⟩
    rw [heq]
    have hperm := (sortByGaugeId_perm
      ((meta.filter (fun r => !(r.gauge_id == row.gauge_id))) ++ [row])).map
        (fun r => r.gauge_id)
    apply hperm.nodup_iff.mpr
    rw [List.map_append]
    apply List.Nodup.append
    · exact hnd.sublist ((List.filter_sublist meta).map (fun r => r.gauge_id))
    · simp
    · intro a ha hb
      have hb2 : a = row.gauge_id := by simpa using hb
      subst hb2
      exact not_mem_filtered_keys row meta ha
  · simp only [Bool.not_eq_true] at hc
    refine ⟨?_, fun hcon => by rw [hc] at hcon; exact absurd hcon (by simp)⟩
    have heq : save_metadata_global row (some meta) = meta ++ [row] := by
      simp only [save_metadata_global]
      rw [if_neg (by rw [hc]; simp)]
    rw [heq, List.map_append]
    apply List.Nodup.append hnd (by simp)
    intro a ha hb
    have hb2 : a = row.gauge_id := by simpa using hb
    subst hb2
    have hmem : (meta.map (fun r => r.gauge_id)).contains row.gauge_id = true := by
      simpa using ha
    rw [hc] at hmem
    exact absurd hmem (by simp)

/-- C2 witness: replacing the single row of a one-row table keeps the keys
unique and the table sorted. -/
theorem save_metadata_global_upsert_amended_witness :
    (([mkRow "DE110000"].map (fun r => r.gauge_id)).Nodup)
    ∧ (((save_metadata_global (mkRow "DE110000") (some [mkRow "DE110000"])).map
          (fun r => r.gauge_id)).Nodup
       ∧ (([mkRow "DE110000"].map (fun r => r.gauge_id)).contains
            (mkRow "DE110000").gauge_id = true →
          List.Sorted gaugeLe
            (save_metadata_global (mkRow "DE110000") (some [mkRow "DE110000"])))) :=
  ⟨by decide,
   save_metadata_global_upsert_amended (mkRow "DE110000") [mkRow "DE110000"] (by decide)⟩

/-- C6: saving metadata twice for the same `gauge_id` (with any starting
table) leaves exactly one row for that id in the global table — the second
call's row — and the second call's replace path re-sorts the table
(`station.py` lines 256-266). -/
theorem save_metadata_twice_upsert (r1 r2 : MetaRow) (tbl : Option (List MetaRow))
    (hg : r1.gauge_id = r2.gauge_id) :
    (save_metadata_global r2 (some (save_metadata_global r1 tbl))).filter
        (fun r => r.gauge_id == r2.gauge_id) = [r2]
    ∧ List.Sorted gaugeLe (save_metadata_global r2 (some (save_metadata_global r1 tbl))) := by
  set t1 := save_metadata_global r1 tbl with ht1
  have hmem : r2.gauge_id ∈ t1.map (fun r => r.gauge_id) := by
    rw [ht1]
    cases tbl with
    | none => simp [save_metadata_global, ← hg]
    | some meta =>
      by_cases hc : (meta.map (fun r => r.gauge_id)).contains r1.gauge_id = true
      · have heq : save_metadata_global r1 (some meta) =
            sortByGaugeId ((meta.filter (fun r => !(r.gauge_id == r1.gauge_id))) ++ [r1]) := by
          simp only [save_metadata_global]
          rw [if_pos hc]
        rw [heq]
        have hperm := (sortByGaugeId_perm
          ((meta.filter (fun r => !(r.gauge_id == r1.gauge_id))) ++ [r1])).map
            (fun r => r.gauge_id)
        apply hperm.mem_iff.mpr
        simp [← hg]
      · simp only [Bool.not_eq_true] at hc
        have heq : save_metadata_global r1 (some meta) = meta ++ [r1] := by
          simp only [save_metadata_global]
          rw [if_neg (by rw [hc]; simp)]
        rw [heq]
        simp [← hg]
  have hcont : (t1.map (fun r => r.gauge_id)).contains r2.gauge_id = true := by
    simpa using hmem
  have heq : save_metadata_global r2 (some t1) =
      sortByGaugeId ((t1.filter (fun r => !(r.gauge_id == r2.gauge_id))) ++ [r2]) := by
    simp only [save_metadata_global]
    rw [if_pos hcont]
  refine ⟨?_, heq ▸ sortByGaugeId_sorted _⟩
  rw [heq]
  have hfilter :
      (((t1.filter (fun r => !(r.gauge_id == r2.gauge_id))) ++ [r2]).filter
        (fun r => r.gauge_id == r2.gauge_id)) = [r2] := by
    rw [List.filter_append]
    have h1 : ((t1.filter (fun r => !(r.gauge_id == r2.gauge_id))).filter
          (fun r => r.gauge_id == r2.gauge_id)) = [] := by
      rw [List.filter_eq_nil_iff]
      intro a ha
      have hq := (List.mem_filter.mp ha).2
      simp at hq ⊢
      exact hq
    have h2 : (([r2] : List MetaRow).filter (fun r => r.gauge_id == r2.gauge_id)) = [r2] := by
      simp
    rw [h1, h2]
    rfl
  have hp := (sortByGaugeId_perm
    ((t1.filter (fun r => !(r.gauge_id == r2.gauge_id))) ++ [r2])).filter
      (fun r => r.gauge_id == r2.gauge_id)
  rw [hfilter] at hp
  exact hp.eq_singleton

/-- C6 witness: two saves for gauge_id DE110000 with different provider
fields, over a table that already held another station. -/
theorem save_metadata_twice_upsert_witness :
    ((mkRow "DE110000").gauge_id =
      (⟨"DE110000", "p2", "n2", "w2", "BW", "9", "48", "1", "2", "3", "4", "True"⟩ :
        MetaRow).gauge_id)
    ∧ ((save_metadata_global
          (⟨"DE110000", "p2", "n2", "w2", "BW", "9", "48", "1", "2", "3", "4", "True"⟩ :
            MetaRow)
          (some (save_metadata_global (mkRow "DE110000")
            (some [mkRow "DE210000"])))).filter
        (fun r => r.gauge_id =
          (⟨"DE110000", "p2", "n2", "w2", "BW", "9", "48", "1", "2", "3", "4", "True"⟩ :
            MetaRow).gauge_id) =
        [⟨"DE110000", "p2", "n2", "w2", "BW", "9", "48", "1", "2", "3", "4", "True"⟩]
       ∧ List.Sorted gaugeLe
          (save_metadata_global
            (⟨"DE110000", "p2", "n2", "w2", "BW", "9", "48", "1", "2", "3", "4", "True"⟩ :
              MetaRow)
            (some (save_metadata_global (mkRow "DE110000")
              (some [mkRow "DE210000"]))))) :=
  ⟨rfl,
   save_metadata_twice_upsert (mkRow "DE110000")
     ⟨"DE110000", "p2", "n2", "w2", "BW", "9", "48", "1", "2", "3", "4", "True"⟩
     (some [mkRow "DE210000"]) rfl⟩

/-- C5: a second registration of an already-registered `provider_id`, with
any valid region code, fails with the Conflict-style `ValueError` of
`util.py` line 108, and both mirrored mapping stores are exactly as the
first (successful) call left them. -/
theorem register_twice_conflict (p bl bl2 : String) (st st2 : MappingState)
    (nid : String)
    (hbl2 : nutsRegionCodes.contains bl2 = true)
    (h : update_nuts_mapping p bl st = (Except.ok nid, st2)) :
    update_nuts_mapping p bl2 st2 =
      (Except.error
        (PyErr.valueError ("provider_id " ++ p ++ " is already in the mapping")),
       st2) := by
  simp only [update_nuts_mapping] at h
  split at h
  · exact absurd h (by simp)
  · split at h
    · exact absurd h (by simp)
    · split at h
      · exact absurd h (by simp)
      · rename_i nn hnew
        rw [Prod.mk.injEq] at h
        have hcsv : st2.csv = sortByNutsId (st.csv ++ [⟨p, nn⟩]) := by
          rw [← h.2]
        have hpm : (st2.csv.map (fun e => e.provider_id)).contains p = true := by
          rw [hcsv]
          have hperm := (sortByNutsId_perm (st.csv ++ [⟨p, nn⟩])).map
            (fun e => e.provider_id)
          have hm : p ∈ (sortByNutsId (st.csv ++ [⟨p, nn⟩])).map
              (fun e => e.provider_id) := hperm.mem_iff.mpr (by simp)
          simpa using hm
        simp only [update_nuts_mapping]
        rw [if_neg (by rw [hbl2]; simp), if_pos hpm]

/-- C5 witness: registering `p1` into an empty mapping and then registering
`p1` again for the same region. -/
theorem register_twice_conflict_witness :
    (nutsRegionCodes.contains "DE1" = true)
    ∧ (update_nuts_mapping "p1" "DE1" ⟨[], []⟩ =
        (Except.ok "DE11000", ⟨[⟨"p1", "DE11000"⟩], [⟨"p1", "DE11000"⟩]⟩))
    ∧ update_nuts_mapping "p1" "DE1" ⟨[⟨"p1", "DE11000"⟩], [⟨"p1", "DE11000"⟩]⟩ =
        (Except.error
          (PyErr.valueError ("provider_id " ++ "p1" ++ " is already in the mapping")),
         ⟨[⟨"p1", "DE11000"⟩], [⟨"p1", "DE11000"⟩]⟩) :=
  ⟨by decide, by decide,
   register_twice_conflict "p1" "DE1" "DE1" ⟨[], []⟩
     ⟨[⟨"p1", "DE11000"⟩], [⟨"p1", "DE11000"⟩]⟩ "DE11000" (by decide) (by decide)⟩

/-- C3 counterexample: a station constructed before any data existed has
`data_path = None` cached; a successful `save_data` writes the file but never
updates `self.data_path` (`station.py` lines 105-163 contain no assignment to
it), so `get_data` on the same object still fails with NotFound even though a
prior save now exists — refuting the claimed if-and-only-if. -/
theorem get_data_after_save_same_object_cex :
    station_init [⟨"p1", "DE110000"⟩] ⟨[]⟩ "DE110000" =
      Except.ok ⟨"DE110000", "output_data/DE1/DE110000", Option.none⟩
    ∧ save_data ⟨"DE110000", "output_data/DE1/DE110000", Option.none⟩
        (PyObj.df ⟨["date"], [0, 60], some "UTC"⟩) ⟨[]⟩ =
      (Except.ok [], ⟨["output_data/DE1/DE110000/DE110000_data.csv"]⟩)
    ∧ get_data ⟨"DE110000", "output_data/DE1/DE110000", Option.none⟩
        ⟨["output_data/DE1/DE110000/DE110000_data.csv"]⟩ =
      Except.error (PyErr.fileNotFoundError "No data found for station DE110000") := by
  exact ⟨by decide, by decide, by decide⟩

/-- C3 amended: `get_data` fails with NotFound exactly when the data file was
absent at the moment the station object was constructed.  A `save_data` on
the same object does not refresh the cached `data_path`, so the object still
fails after its own successful save; a station object freshly constructed
after the save loads successfully. -/
theorem get_data_stale_data_path (mapping : List NutsEntry) (fs fs2 : FS)
    (gid : String) (st : Station) (input : PyObj) (warns : List String)
    (hinit : station_init mapping fs gid = Except.ok st)
    (habsent : fs.files.contains (dataFilePath st.output_path st.gauge_id) = false)
    (hsave : save_data st input fs = (Except.ok warns, fs2)) :
    get_data st fs2 =
      Except.error
        (PyErr.fileNotFoundError ("No data found for station " ++ st.gauge_id))
    ∧ ∃ st2 : Station, station_init mapping fs2 gid = Except.ok st2 ∧
        get_data st2 fs2 = Except.ok () := by
  have hfs2 : fs2 = fs.write (dataFilePath st.output_path st.gauge_id) :=
    save_data_ok_fs hsave
  simp only [station_init] at hinit
  split at hinit
  · exact absurd hinit (by simp)
  · rename_i gid2 hres
    split at hinit
    · exact absurd hinit (by simp)
    · rename_i outp hout
      simp only [Except.ok.injEq] at hinit
      subst hinit
      have habs2 : dataFilePath outp gid2 ∉ fs.files := by simpa using habsent
      have hw : fs2 = fs.write (dataFilePath outp gid2) := by simpa using hfs2
      refine ⟨?_, ⟨gid2, outp, some (dataFilePath outp gid2)⟩, ?_, ?_⟩
      · simp [get_data, habs2]
      · simp [station_init, hres, hout, hw, FS.write]
      · simp [get_data, hw, FS.write]

/-- C3 witness: the concrete scenario of the counterexample run through the
amended theorem: same-object load still fails, fresh-object load succeeds. -/
theorem get_data_stale_data_path_witness :
    (station_init [⟨"p1", "DE110000"⟩] ⟨[]⟩ "DE110000" =
      Except.ok ⟨"DE110000", "output_data/DE1/DE110000", Option.none⟩)
    ∧ ((⟨[]⟩ : FS).files.contains
        (dataFilePath "output_data/DE1/DE110000" "DE110000") = false)
    ∧ (save_data ⟨"DE110000", "output_data/DE1/DE110000", Option.none⟩
        (PyObj.df ⟨["date"], [0, 60], some "UTC"⟩) ⟨[]⟩ =
      (Except.ok [], ⟨["output_data/DE1/DE110000/DE110000_data.csv"]⟩))
    ∧ (get_data ⟨"DE110000", "output_data/DE1/DE110000", Option.none⟩
          ⟨["output_data/DE1/DE110000/DE110000_data.csv"]⟩ =
        Except.error
          (PyErr.fileNotFoundError ("No data found for station " ++ "DE110000"))
       ∧ ∃ st2 : Station,
          station_init [⟨"p1", "DE110000"⟩]
              ⟨["output_data/DE1/DE110000/DE110000_data.csv"]⟩ "DE110000" =
            Except.ok st2
          ∧ get_data st2 ⟨["output_data/DE1/DE110000/DE110000_data.csv"]⟩ =
            Except.ok ()) :=
  ⟨by decide, by decide, by decide,
   get_data_stale_data_path [⟨"p1", "DE110000"⟩] ⟨[]⟩
     ⟨["output_data/DE1/DE110000/DE110000_data.csv"]⟩ "DE110000"
     ⟨"DE110000", "output_data/DE1/DE110000", Option.none⟩
     (PyObj.df ⟨["date"], [0, 60], some "UTC"⟩) [] (by decide) (by decide) (by decide)⟩

end CamelsDE1h
